import Mathlib

/-!
Shallow embedding of the `DouBanWatching` plugin
(`plugins/doubanwatching/__init__.py`).

The plugin's decision logic is pure except for calls to external
collaborators (metadata recognizer, archive client, clock).  Those are
modelled as an explicit `Env` of functions; the host key-value store entry
`data["data"]` is modelled as an association list `Store` that is threaded
through the handlers and returned (the handler writes it back via
`save_data` exactly when the returned store differs from the input, i.e.
only in the successful-sync branch).  Each early `return` of the Python
code becomes a distinct `SyncOutcome` constructor.  Python string fields
that are converted with `int(...)` (`season_id`, `episode_id`) are modelled
as `Nat` directly; absent (`None`) strings are modelled as `""` and the
absent tmdb id as `none`.
-/

/-- One entry of the processed-item map (`processed_items[title] = {...}`,
line 231-237 of the source). -/
structure ProcessedRecord where
  subject_id : String
  subject_name : String
  timestamp : String
  poster_path : String
  type : String
deriving DecidableEq, Repr

/-- The persisted `data["data"]` mapping: display title -> record. -/
abbrev Store := List (String × ProcessedRecord)

/-- Association-list lookup, modelling Python `dict.get`. -/
def alistGet {α β : Type} [DecidableEq α] : List (α × β) → α → Option β
  | [], _ => none
  | (k, v) :: rest, key => if key = k then some v else alistGet rest key

/-- Association-list update, modelling Python `d[k] = v`. -/
def alistInsert {α β : Type} [DecidableEq α] : List (α × β) → α → β → List (α × β)
  | [], key, v => [(key, v)]
  | (k, w) :: rest, key, v =>
    if k = key then (key, v) :: rest else (k, w) :: alistInsert rest key v

/-- Python dict union `existing | imported` (right operand wins). -/
def storeMerge (existing imported : Store) : Store :=
  imported.foldl (fun acc kv => alistInsert acc kv.1 kv.2) existing

/-- The webhook payload fields the plugin reads (`WebhookEventInfo`). -/
structure WebhookEventInfo where
  event : String
  user_name : String
  item_type : String
  item_name : String
  season_id : Nat
  episode_id : Nat
  tmdb_id : Option Nat
  item_path : String
  channel : String
deriving DecidableEq, Repr

/-- The plugin configuration (`DouBanWatchingConfig` dataclass). -/
structure DouBanWatchingConfig where
  enabled : Bool
  private_ : Bool
  first : Bool
  user : String
  exclude : String
  cookie : String
  pc_month : Nat
  pc_num : Nat
  mobile_month : Nat
  mobile_num : Nat
deriving DecidableEq, Repr

/-- Recognized media metadata: the two fields the plugin reads
(`mediainfo.seasons`, `mediainfo.poster_path`). -/
structure MediaInfo where
  seasons : List (Nat × List Nat)
  poster_path : String
deriving DecidableEq, Repr

/-- The query the plugin builds for the recognizer: `MetaInfo(title)` plus
the fields it sets (`begin_season`, `type`). -/
structure MetaQuery where
  title : String
  begin_season : Option Nat
  mtype : String
deriving DecidableEq, Repr

/-- External collaborators: metadata recognizer (`MediaChain.recognize_media`
with its `tmdbid` argument), archive client (`DoubanHelper.get_subject_id`,
returning `none` for a falsy subject id, and `set_watching_status`), and the
clock used for the stored timestamp. -/
structure Env where
  recognize : MetaQuery → Option Nat → Option MediaInfo
  get_subject_id : String → Option (String × String)
  set_watching_status : String → String → Bool → Bool
  now : String

/-- One constructor per terminal code path of the handlers. -/
inductive SyncOutcome where
  | Ignored
  | Excluded (message : String)
  | Unsupported
  | TitleParseFailed
  | SkippedFirstEpisode
  | RecognitionFailed
  | AlreadySynced
  | SubjectNotFound
  | SyncFailed
  | Synced (title status : String)
deriving DecidableEq, Repr

/-- Python `str.split` on a set of single-character separators, keeping
empty pieces (`re.split(r"[，,]", ...)` and `str.split(",")`). -/
def splitCharsAux (seps : List Char) : List Char → List Char → List (List Char)
  | [], acc => [acc.reverse]
  | c :: rest, acc =>
    if c ∈ seps then acc.reverse :: splitCharsAux seps rest []
    else splitCharsAux seps rest (c :: acc)

/-- Split a string on the given separator characters, Python-style. -/
def pySplit (s : String) (seps : List Char) : List String :=
  (splitCharsAux seps s.data []).map (fun l => String.mk l)

/-- Python list/str prefix test used by `listSub`. -/
def listPre : List Char → List Char → Bool
  | [], _ => true
  | _ :: _, [] => false
  | a :: as, b :: bs => a == b && listPre as bs

/-- Python substring test `needle in hay` (note `"" in s` is `True`). -/
def listSub (n : List Char) : List Char → Bool
  | [] => listPre n []
  | c :: rest => listPre n (c :: rest) || listSub n rest

/-- Result dict of `exclude_keyword`: `{"ret": ..., "message": ...}`. -/
structure ExcludeResult where
  ret : Bool
  message : String
deriving DecidableEq, Repr

/-- `DouBanWatching.exclude_keyword` (source lines 784-797). -/
def exclude_keyword (channel path keywords : String) : ExcludeResult :=
  if keywords = "" then
    { ret := false, message := "空关键词" }
  else if channel ≠ "plex" ∧ path = "" then
    { ret := false, message := "媒体路径为空,不执行过滤操作" }
  else
    let keywords_list := pySplit keywords [',', '，']
    if keywords_list.any (fun k => listSub k.data path.data) then
      { ret := true, message := "路径 " ++ path ++ " 包含 " ++ keywords }
    else
      { ret := false, message := "路径 " ++ path ++ " 不包含任何关键词 " ++ keywords }

/-- `DouBanWatching.format_title` (source lines 799-803). -/
def format_title (title : String) (season_id : Nat) : String :=
  if season_id > 1 then title ++ " 第" ++ toString season_id ++ "季" else title

/-- Prefix of a character list strictly before the first occurrence of the
marker `' ' :: 'S'`; `none` when no occurrence exists.  Models
`item_name.index(" S")` / slicing of source lines 136-137 (where a missing
marker raises `ValueError`). -/
def markerSplit : List Char → Option (List Char)
  | [] => none
  | c :: rest =>
    if c = ' ' ∧ rest.head? = some 'S' then some []
    else (markerSplit rest).map (c :: ·)

/-- TV canonical title: `item_name[:item_name.index(" S")]`. -/
def canonical_tv_title (itemName : String) : Option String :=
  (markerSplit itemName.data).map (fun l => String.mk l)

/-- Canonical title per item type: TV strips from the season marker
(source line 136-137), movies use the item name verbatim (source line 177);
other types are not handled. -/
def canonicalTitle (itemName itemType : String) : Option String :=
  if itemType = "TV" then canonical_tv_title itemName
  else if itemType = "MOV" then some itemName
  else none

/-- Source line 166: `status = "collect" if len(episodes) == episode_id
else "do"` (`"collect"` is the spec's "collected", `"do"` its
"in-progress"). -/
def resolve_tv_status (episodes : List Nat) (episode_id : Nat) : String :=
  if episodes.length = episode_id then "collect" else "do"

/-- The recognition retry of source lines 151-161 / 184-194: a failing
lookup constrained by the tmdb id is retried exactly once with the tmdb id
cleared. -/
def recognize_chain (env : Env) (meta : MetaQuery) (tmdb_id : Option Nat) :
    Option MediaInfo :=
  match env.recognize meta tmdb_id with
  | some mi => some mi
  | none => env.recognize meta none

/-- `DouBanWatching._sync_to_douban` (source lines 209-245): resolve a
subject id for the title, push the status, and only on full success insert
the record and persist the map. -/
def _sync_to_douban (cfg : DouBanWatchingConfig) (env : Env)
    (title status : String) (event : WebhookEventInfo) (store : Store)
    (mi : MediaInfo) : SyncOutcome × Store :=
  match env.get_subject_id title with
  | some (subject_name, subject_id) =>
    if env.set_watching_status subject_id status cfg.private_ then
      (SyncOutcome.Synced title status,
        alistInsert store title
          { subject_id := subject_id
            subject_name := subject_name
            timestamp := env.now
            poster_path := mi.poster_path
            type := if event.item_type = "TV" then "电视剧" else "电影" })
    else (SyncOutcome.SyncFailed, store)
  | none => (SyncOutcome.SubjectNotFound, store)

/-- `DouBanWatching._process_tv_show` (source lines 133-172). -/
def _process_tv_show (cfg : DouBanWatchingConfig) (env : Env)
    (event : WebhookEventInfo) (store : Store) (played : Bool) :
    SyncOutcome × Store :=
  match canonical_tv_title event.item_name with
  | none => (SyncOutcome.TitleParseFailed, store)
  | some title =>
    if event.episode_id < 2 ∧ cfg.first = true then
      (SyncOutcome.SkippedFirstEpisode, store)
    else
      let meta : MetaQuery :=
        { title := title, begin_season := some event.season_id, mtype := "电视剧" }
      match recognize_chain env meta event.tmdb_id with
      | none => (SyncOutcome.RecognitionFailed, store)
      | some mi =>
        let episodes := (alistGet mi.seasons event.season_id).getD []
        let title2 := format_title title event.season_id
        let status := resolve_tv_status episodes event.episode_id
        if (alistGet store title2).isSome = true ∧
            episodes.length ≠ event.episode_id then
          (SyncOutcome.AlreadySynced, store)
        else
          _sync_to_douban cfg env title2 status event store mi

/-- `DouBanWatching._process_movie` (source lines 174-200). -/
def _process_movie (cfg : DouBanWatchingConfig) (env : Env)
    (event : WebhookEventInfo) (store : Store) (played : Bool) :
    SyncOutcome × Store :=
  let title := event.item_name
  let meta : MetaQuery := { title := title, begin_season := none, mtype := "电影" }
  match recognize_chain env meta event.tmdb_id with
  | none => (SyncOutcome.RecognitionFailed, store)
  | some mi =>
    if (alistGet store title).isSome = true then
      (SyncOutcome.AlreadySynced, store)
    else
      _sync_to_douban cfg env title "collect" event store mi

/-- Event kinds accepted by `sync_log` (source line 93). -/
def play_start : List String := ["playback.start", "media.play", "PlaybackStart"]

/-- Event kinds accepted by `sync_played` (source line 124). -/
def played_events : List String := ["item.markplayed", "media.scrobble"]

/-- `DouBanWatching.sync_log` (source lines 90-119); `played = false` is
the direct webhook invocation. -/
def sync_log (cfg : DouBanWatchingConfig) (env : Env)
    (event : WebhookEventInfo) (store : Store) (played : Bool) :
    SyncOutcome × Store :=
  if (play_start.contains event.event ∧
      (pySplit cfg.user [',']).contains event.user_name) ∨ played = true then
    let ex := exclude_keyword event.channel event.item_path cfg.exclude
    if ex.ret then (SyncOutcome.Excluded ex.message, store)
    else if event.item_type = "TV" then _process_tv_show cfg env event store played
    else if event.item_type = "MOV" then _process_movie cfg env event store played
    else (SyncOutcome.Unsupported, store)
  else (SyncOutcome.Ignored, store)

/-- `DouBanWatching.sync_played` (source lines 121-131). -/
def sync_played (cfg : DouBanWatchingConfig) (env : Env)
    (event : WebhookEventInfo) (store : Store) : SyncOutcome × Store :=
  if played_events.contains event.event ∧
      (pySplit cfg.user [',']).contains event.user_name then
    sync_log cfg env event store true
  else (SyncOutcome.Ignored, store)

/-- Parsed backup file as `_import_config_data` sees it: the file may be
missing (`FileNotFoundError`), malformed (JSON error, missing key or wrong
shape, all caught by the generic `except`), or carry a config dict plus a
processed-item map. -/
inductive BackupInput where
  | missing
  | malformed
  | valid (config : DouBanWatchingConfig) (data : Store)

/-- `DouBanWatching._import_config_data` (source lines 548-567), returning
(success flag, resulting store, config written via `update_config`).  Both
error branches only log; the store write happens only in the `valid`
branch. -/
def _import_config_data (input : BackupInput) (existing : Store) :
    Bool × Store × Option DouBanWatchingConfig :=
  match input with
  | BackupInput.missing => (false, existing, none)
  | BackupInput.malformed => (false, existing, none)
  | BackupInput.valid cfg d => (true, storeMerge existing d, some cfg)

/-- First-some choice on options (Python dict-union value selection). -/
def optOr {α : Type} : Option α → Option α → Option α
  | some v, _ => some v
  | none, b => b

/-- Concrete configuration used by the witnesses. -/
def sampleCfg : DouBanWatchingConfig :=
  { enabled := true, private_ := true, first := true, user := "u",
    exclude := "", cookie := "", pc_month := 3, pc_num := 50,
    mobile_month := 2, mobile_num := 15 }

/-- Concrete recognizer answer: season 1 has three episodes. -/
def sampleMediaInfo : MediaInfo :=
  { seasons := [(1, [1, 2, 3])], poster_path := "/original/p.jpg" }

/-- Environment whose collaborators all succeed. -/
def sampleEnv : Env :=
  { recognize := fun _ _ => some sampleMediaInfo
    get_subject_id := fun _ => some ("Show", "123")
    set_watching_status := fun _ _ _ => true
    now := "2024-01-01 00:00:00" }

/-- Environment whose collaborators all fail. -/
def noRecEnv : Env :=
  { recognize := fun _ _ => none
    get_subject_id := fun _ => none
    set_watching_status := fun _ _ _ => false
    now := "" }

/-- A concrete stored record. -/
def sampleRecord : ProcessedRecord :=
  { subject_id := "123", subject_name := "Show",
    timestamp := "2024-01-01 00:00:00", poster_path := "/original/p.jpg",
    type := "电视剧" }

/-- Concrete TV playback event: episode 3 of a 3-episode season. -/
def sampleTvEvent : WebhookEventInfo :=
  { event := "media.play", user_name := "u", item_type := "TV",
    item_name := "Show S01E03", season_id := 1, episode_id := 3,
    tmdb_id := some 100, item_path := "/media/show", channel := "emby" }

/-- Concrete movie playback event. -/
def sampleMovieEvent : WebhookEventInfo :=
  { event := "media.play", user_name := "u", item_type := "MOV",
    item_name := "Arrival", season_id := 1, episode_id := 1,
    tmdb_id := some 200, item_path := "/media/arrival", channel := "emby" }

/-- Concrete event of an unsupported item type on an excluded path. -/
def sampleMusicEvent : WebhookEventInfo :=
  { event := "media.play", user_name := "u", item_type := "Music",
    item_name := "Song", season_id := 0, episode_id := 0, tmdb_id := none,
    item_path := "/x/foo", channel := "emby" }

/-- Lookup after an association-list update. -/
theorem alistGet_alistInsert {α β : Type} [DecidableEq α]
    (s : List (α × β)) (k0 k : α) (v0 : β) :
    alistGet (alistInsert s k0 v0) k = if k = k0 then some v0 else alistGet s k := by
  induction s with
  | nil => simp [alistInsert, alistGet]
  | cons hd tl ih =>
    obtain ⟨a, b⟩ := hd
    by_cases hak : a = k0
    · subst hak
      by_cases hk : k = a <;> simp [alistInsert, alistGet, hk]
    · simp only [alistInsert, if_neg hak, alistGet]
      by_cases hk : k = a
      · have hkk0 : ¬ k = k0 := fun h => hak (hk.symm.trans h)
        simp [hk, hkk0, hak]
      · simp [hk, ih]

/-- Keys absent from an association list look up to `none`. -/
theorem alistGet_eq_none_of_not_mem {α β : Type} [DecidableEq α]
    (s : List (α × β)) (k : α) (h : k ∉ s.map Prod.fst) : alistGet s k = none := by
  induction s with
  | nil => simp [alistGet]
  | cons hd tl ih =>
    simp only [List.map_cons, List.mem_cons, not_or] at h
    simp [alistGet, h.1, ih h.2]

/-- Dict union behaviour of `storeMerge`: the imported value wins on every
key collision (for an imported map with distinct keys, as a parsed JSON
object always has). -/
theorem alistGet_storeMerge (existing imported : Store) (k : String)
    (hnd : (imported.map Prod.fst).Nodup) :
    alistGet (storeMerge existing imported) k =
      optOr (alistGet imported k) (alistGet existing k) := by
  induction imported generalizing existing with
  | nil => simp [storeMerge, alistGet, optOr]
  | cons hd tl ih =>
    obtain ⟨k0, v0⟩ := hd
    simp only [List.map_cons, List.nodup_cons] at hnd
    have hstep : storeMerge existing ((k0, v0) :: tl) =
        storeMerge (alistInsert existing k0 v0) tl := rfl
    rw [hstep, ih (alistInsert existing k0 v0) hnd.2, alistGet_alistInsert]
    by_cases hk : k = k0
    · subst hk
      have htl : alistGet tl k = none :=
        alistGet_eq_none_of_not_mem tl k (by simpa using hnd.1)
      simp [alistGet, htl, optOr]
    · simp [alistGet, hk]

/-- `markerSplit` fails exactly on inputs with no `' ' :: 'S'` occurrence. -/
theorem markerSplit_eq_none_iff (l : List Char) :
    markerSplit l = none ↔ ¬ ∃ pre post : List Char, l = pre ++ ' ' :: 'S' :: post := by
  induction l with
  | nil =>
    simp only [markerSplit, true_iff]
    rintro ⟨pre, post, h⟩
    cases pre <;> simp at h
  | cons c rest ih =>
    by_cases hc : c = ' ' ∧ rest.head? = some 'S'
    · obtain ⟨hc1, hc2⟩ := hc
      obtain ⟨rest', hrest⟩ : ∃ r, rest = 'S' :: r := by
        cases rest with
        | nil => simp at hc2
        | cons x xs =>
          simp only [List.head?_cons, Option.some.injEq] at hc2
          exact ⟨xs, by rw [hc2]⟩
      subst hc1
      subst hrest
      have hcond : (' ' : Char) = ' ' ∧ ('S' :: rest').head? = some 'S' := ⟨rfl, rfl⟩
      simp only [markerSplit, if_pos hcond]
      constructor
      · intro h
        exact Option.noConfusion h
      · intro h
        exact absurd (⟨[], rest', rfl⟩ :
          ∃ pre post : List Char, ' ' :: 'S' :: rest' = pre ++ ' ' :: 'S' :: post) h
    · have hiff : (∃ pre post : List Char, c :: rest = pre ++ ' ' :: 'S' :: post) ↔
          (∃ pre post : List Char, rest = pre ++ ' ' :: 'S' :: post) := by
        constructor
        · rintro ⟨pre, post, h⟩
          cases pre with
          | nil =>
            simp only [List.nil_append, List.cons.injEq] at h
            exact absurd ⟨h.1, by rw [h.2]; rfl⟩ hc
          | cons p ps =>
            simp only [List.cons_append, List.cons.injEq] at h
            exact ⟨ps, post, h.2⟩
        · rintro ⟨pre, post, h⟩
          exact ⟨c :: pre, post, by rw [h]; rfl⟩
      rw [markerSplit, if_neg hc, Option.map_eq_none', ih]
      exact not_congr hiff.symm

/-- Successful `markerSplit` returns the prefix before the first marker
occurrence: the input decomposes at the marker and the prefix itself
contains no marker. -/
theorem markerSplit_eq_some (l p : List Char) (h : markerSplit l = some p) :
    (∃ rest, l = p ++ ' ' :: 'S' :: rest) ∧ markerSplit p = none := by
  induction l generalizing p with
  | nil => exact Option.noConfusion h
  | cons c rest ih =>
    by_cases hc : c = ' ' ∧ rest.head? = some 'S'
    · obtain ⟨hc1, hc2⟩ := hc
      obtain ⟨rest', hrest⟩ : ∃ r, rest = 'S' :: r := by
        cases rest with
        | nil => simp at hc2
        | cons x xs =>
          simp only [List.head?_cons, Option.some.injEq] at hc2
          exact ⟨xs, by rw [hc2]⟩
      subst hc1
      subst hrest
      rw [markerSplit, if_pos ⟨rfl, rfl⟩] at h
      obtain rfl : p = [] := by simpa using h.symm
      exact ⟨⟨rest', rfl⟩, rfl⟩
    · rw [markerSplit, if_neg hc] at h
      obtain ⟨q, hq, rfl⟩ : ∃ q, markerSplit rest = some q ∧ p = c :: q := by
        rcases Option.map_eq_some'.mp h with ⟨q, hq1, hq2⟩
        exact ⟨q, hq1, hq2.symm⟩
      obtain ⟨⟨r, hr⟩, hqnone⟩ := ih q hq
      refine ⟨⟨r, by rw [hr]; rfl⟩, ?_⟩
      have hcq : ¬ (c = ' ' ∧ q.head? = some 'S') := by
        rintro ⟨h1, h2⟩
        cases q with
        | nil => simp at h2
        | cons d ds =>
          simp only [List.head?_cons, Option.some.injEq] at h2
          refine hc ⟨h1, ?_⟩
          rw [hr, h2]
          rfl
      rw [markerSplit, if_neg hcq, hqnone]
      rfl

/-- `_sync_to_douban` never reports `AlreadySynced`: that outcome only
arises from the store check in the callers. -/
theorem sync_to_douban_fst_ne_already (cfg : DouBanWatchingConfig) (env : Env)
    (title status : String) (event : WebhookEventInfo) (store : Store)
    (mi : MediaInfo) :
    (_sync_to_douban cfg env title status event store mi).1 ≠
      SyncOutcome.AlreadySynced := by
  rcases h : env.get_subject_id title with _ | ⟨n, i⟩
  · simp [_sync_to_douban, h]
  · by_cases hs : env.set_watching_status i status cfg.private_ = true <;>
      simp [_sync_to_douban, h, hs]

/-- A `Synced` outcome of `_sync_to_douban` carries exactly the title and
status it was invoked with. -/
theorem sync_to_douban_synced_inv (cfg : DouBanWatchingConfig) (env : Env)
    (title status : String) (event : WebhookEventInfo) (store : Store)
    (mi : MediaInfo) (ttl st : String)
    (h : (_sync_to_douban cfg env title status event store mi).1 =
      SyncOutcome.Synced ttl st) : ttl = title ∧ st = status := by
  rcases hsub : env.get_subject_id title with _ | ⟨n, i⟩
  · simp [_sync_to_douban, hsub] at h
  · by_cases hs : env.set_watching_status i status cfg.private_ = true
    · simp only [_sync_to_douban, hsub, hs, if_true] at h
      exact ⟨(SyncOutcome.Synced.injEq _ _ _ _).mp h.symm |>.1,
        (SyncOutcome.Synced.injEq _ _ _ _).mp h.symm |>.2⟩
    · simp [_sync_to_douban, hsub, hs] at h

/-- Behaviour of `_process_tv_show` after the title parse, the
first-episode suppression and the recognition chain have all passed. -/
theorem process_tv_unfold (cfg : DouBanWatchingConfig) (env : Env)
    (event : WebhookEventInfo) (store : Store) (played : Bool)
    (t : String) (mi : MediaInfo)
    (hti : canonical_tv_title event.item_name = some t)
    (hsup : ¬ (event.episode_id < 2 ∧ cfg.first = true))
    (hrec : recognize_chain env
      { title := t, begin_season := some event.season_id, mtype := "电视剧" }
      event.tmdb_id = some mi) :
    _process_tv_show cfg env event store played =
      if (alistGet store (format_title t event.season_id)).isSome = true ∧
          ((alistGet mi.seasons event.season_id).getD []).length ≠ event.episode_id then
        (SyncOutcome.AlreadySynced, store)
      else
        _sync_to_douban cfg env (format_title t event.season_id)
          (resolve_tv_status ((alistGet mi.seasons event.season_id).getD [])
            event.episode_id) event store mi := by
  unfold _process_tv_show
  rw [hti]
  simp only [if_neg hsup, hrec]

/-- C1: for a TV playback event that passes suppression and recognition,
the resolved status (`"collect"`, the spec's "collected", vs `"do"`, the
spec's "in-progress") is `"collect"` exactly when the recognized season's
episode count equals the event's episode index; the handler returns
`AlreadySynced` with the store unchanged exactly when the store already has
a record for the display title and the episode count differs from the
episode index; and a final-episode event always proceeds to the sync
attempt (with status `"collect"`) even if a record already exists. -/
theorem C1_tv_status_and_final_episode (cfg : DouBanWatchingConfig) (env : Env)
    (event : WebhookEventInfo) (store : Store) (played : Bool)
    (t : String) (mi : MediaInfo)
    (hti : canonical_tv_title event.item_name = some t)
    (hsup : ¬ (event.episode_id < 2 ∧ cfg.first = true))
    (hrec : recognize_chain env
      { title := t, begin_season := some event.season_id, mtype := "电视剧" }
      event.tmdb_id = some mi) :
    (resolve_tv_status ((alistGet mi.seasons event.season_id).getD [])
        event.episode_id = "collect" ↔
      ((alistGet mi.seasons event.season_id).getD []).length = event.episode_id) ∧
    (_process_tv_show cfg env event store played = (SyncOutcome.AlreadySynced, store) ↔
      ((alistGet store (format_title t event.season_id)).isSome = true ∧
        ((alistGet mi.seasons event.season_id).getD []).length ≠ event.episode_id)) ∧
    (((alistGet mi.seasons event.season_id).getD []).length = event.episode_id →
      _process_tv_show cfg env event store played =
        _sync_to_douban cfg env (format_title t event.season_id) "collect"
          event store mi) := by
  rw [process_tv_unfold cfg env event store played t mi hti hsup hrec]
  refine ⟨?_, ?_, ?_⟩
  · by_cases h : ((alistGet mi.seasons event.season_id).getD []).length = event.episode_id
    · simp [resolve_tv_status, h]
    · simp only [resolve_tv_status, if_neg h]
      exact ⟨fun hco => absurd hco (by decide), fun hlen => absurd hlen h⟩
  · by_cases h : (alistGet store (format_title t event.season_id)).isSome = true ∧
        ((alistGet mi.seasons event.season_id).getD []).length ≠ event.episode_id
    · simp [h]
    · rw [if_neg h]
      constructor
      · intro heq
        exact absurd (congrArg Prod.fst heq)
          (sync_to_douban_fst_ne_already cfg env _ _ event store mi)
      · intro hrhs
        exact absurd hrhs h
  · intro hlen
    rw [if_neg (fun hcond => hcond.2 hlen)]
    simp [resolve_tv_status, hlen]

/-- C1 witness: the final episode of a 3-episode season resolves to
`"collect"` and proceeds to the sync attempt. -/
theorem C1_tv_status_and_final_episode_witness :
    _process_tv_show sampleCfg sampleEnv sampleTvEvent [] false =
      _sync_to_douban sampleCfg sampleEnv "Show" "collect" sampleTvEvent []
        sampleMediaInfo :=
  (C1_tv_status_and_final_episode sampleCfg sampleEnv sampleTvEvent [] false
    "Show" sampleMediaInfo (by decide) (by decide) (by decide)).2.2 (by decide)

/-- C2: a TV playback event with episode index below 2 while the
suppress-first-episode flag is on returns `SkippedFirstEpisode` for every
environment and store, with the store unchanged — so no store check and no
external call can influence the result. -/
theorem C2_first_episode_suppressed (cfg : DouBanWatchingConfig)
    (event : WebhookEventInfo) (t : String)
    (hti : canonical_tv_title event.item_name = some t)
    (hep : event.episode_id < 2) (hfirst : cfg.first = true) :
    ∀ (env : Env) (store : Store) (played : Bool),
      _process_tv_show cfg env event store played =
        (SyncOutcome.SkippedFirstEpisode, store) := by
  intro env store played
  unfold _process_tv_show
  rw [hti]
  simp [hep, hfirst]

/-- C2 witness: episode 1 with suppression enabled is skipped. -/
theorem C2_first_episode_suppressed_witness :
    _process_tv_show sampleCfg sampleEnv
      { sampleTvEvent with episode_id := 1 } [] false =
      (SyncOutcome.SkippedFirstEpisode, []) :=
  C2_first_episode_suppressed sampleCfg { sampleTvEvent with episode_id := 1 }
    "Show" (by decide) (by decide) (by decide) sampleEnv [] false

/-- C3: a movie playback event whose title already has a store record
yields `AlreadySynced` with the store unchanged — for every archive client
(`env.get_subject_id` / `env.set_watching_status` are unconstrained, so no
archive call is performed; note the recognition lookup does still run
before the store check, in the source as in the spec pipeline) — and every
`Synced` outcome of the movie handler carries status `"collect"`. -/
theorem C3_movie_already_synced (cfg : DouBanWatchingConfig) (env : Env)
    (event : WebhookEventInfo) (store : Store) (played : Bool) (mi : MediaInfo)
    (hrec : recognize_chain env
      { title := event.item_name, begin_season := none, mtype := "电影" }
      event.tmdb_id = some mi)
    (hhit : (alistGet store event.item_name).isSome = true) :
    _process_movie cfg env event store played = (SyncOutcome.AlreadySynced, store) ∧
    ∀ (cfg' : DouBanWatchingConfig) (env' : Env) (event' : WebhookEventInfo)
      (store' : Store) (played' : Bool) (ttl st : String),
      (_process_movie cfg' env' event' store' played').1 = SyncOutcome.Synced ttl st →
      st = "collect" := by
  constructor
  · unfold _process_movie
    simp only [hrec, hhit, if_true]
  · intro cfg' env' event' store' played' ttl st hS
    rcases h2 : recognize_chain env'
        { title := event'.item_name, begin_season := none, mtype := "电影" }
        event'.tmdb_id with _ | mi'
    · unfold _process_movie at hS
      simp [h2] at hS
    · unfold _process_movie at hS
      simp only [h2] at hS
      by_cases hhit' : (alistGet store' event'.item_name).isSome = true
      · rw [if_pos hhit'] at hS
        simp at hS
      · rw [if_neg hhit'] at hS
        exact (sync_to_douban_synced_inv cfg' env' event'.item_name "collect"
          event' store' mi' ttl st hS).2

/-- C3 witness: a second event for the already-recorded movie "Arrival". -/
theorem C3_movie_already_synced_witness :
    _process_movie sampleCfg sampleEnv sampleMovieEvent
      [("Arrival", sampleRecord)] false =
      (SyncOutcome.AlreadySynced, [("Arrival", sampleRecord)]) :=
  (C3_movie_already_synced sampleCfg sampleEnv sampleMovieEvent
    [("Arrival", sampleRecord)] false sampleMediaInfo (by decide) (by decide)).1

/-- C4 counterexample: the claim's "true iff some NON-EMPTY keyword is a
substring of the path" is false.  Splitting `"bar,"` yields the pieces
`["bar", ""]`; the only non-empty piece `"bar"` does not occur in
`"/media/x/baz"`, yet the filter excludes, because the empty piece is a
substring of every path.  Likewise the general "path empty for plex ⇒ not
excluded" sentence fails for `","`. -/
theorem C4_counterexample :
    (exclude_keyword "emby" "/media/x/baz" "bar,").ret = true ∧
    pySplit "bar," [',', '，'] = ["bar", ""] ∧
    listSub "bar".data "/media/x/baz".data = false ∧
    (exclude_keyword "plex" "" ",").ret = true := by decide

/-- C4 (amended): with empty keyword configuration the filter never
excludes; with an empty path on a channel other than `"plex"` the filter is
skipped and never excludes; otherwise (including `"plex"` with an empty
path) the keywords are split on ASCII or full-width comma and the filter
excludes iff SOME piece — possibly the empty piece, which is a substring of
every path — is a substring of the path.  The claim's three concrete
examples hold. -/
theorem exclude_keyword_ret (channel path keywords : String)
    (hk : keywords ≠ "") (hcond : ¬ (channel ≠ "plex" ∧ path = "")) :
    (exclude_keyword channel path keywords).ret =
      (pySplit keywords [',', '，']).any (fun k => listSub k.data path.data) := by
  unfold exclude_keyword
  rw [if_neg hk, if_neg hcond]
  by_cases ha : (pySplit keywords [',', '，']).any
      (fun k => listSub k.data path.data) = true
  · rw [if_pos ha, ha]
  · have ha' : (pySplit keywords [',', '，']).any
        (fun k => listSub k.data path.data) = false := Bool.eq_false_iff.mpr ha
    rw [if_neg ha, ha']

theorem C4_amended_exclusion (channel path keywords : String) :
    (exclude_keyword channel path "").ret = false ∧
    (channel ≠ "plex" → (exclude_keyword channel "" keywords).ret = false) ∧
    (keywords ≠ "" → (channel = "plex" ∨ path ≠ "") →
      ((exclude_keyword channel path keywords).ret = true ↔
        ∃ k ∈ pySplit keywords [',', '，'], listSub k.data path.data = true)) ∧
    (exclude_keyword "emby" "/media/x/foo" "foo,bar").ret = true ∧
    (exclude_keyword "emby" "/media/x/baz" "foo,bar").ret = false ∧
    (exclude_keyword "plex" "" "foo").ret = false := by
  refine ⟨by simp [exclude_keyword], ?_, ?_, by decide, by decide, by decide⟩
  · intro hch
    by_cases hk : keywords = ""
    · simp [exclude_keyword, hk]
    · have hcond : channel ≠ "plex" ∧ ("" : String) = "" := ⟨hch, rfl⟩
      unfold exclude_keyword
      rw [if_neg hk, if_pos hcond]
  · intro hk hcp
    have hcond : ¬ (channel ≠ "plex" ∧ path = "") := by
      rintro ⟨hcne, hpe⟩
      rcases hcp with hc | hp
      · exact hcne hc
      · exact hp hpe
    rw [exclude_keyword_ret channel path keywords hk hcond]
    exact List.any_eq_true

/-- C4 witness for the amended claim: the skipped-filter case and the
split-based membership test at concrete inputs. -/
theorem C4_amended_exclusion_witness :
    (exclude_keyword "emby" "" "foo,bar").ret = false ∧
    ((exclude_keyword "emby" "/media/x/foo" "foo,bar").ret = true ↔
      ∃ k ∈ pySplit "foo,bar" [',', '，'], listSub k.data "/media/x/foo".data = true) :=
  ⟨(C4_amended_exclusion "emby" "" "foo,bar").2.1 (by decide),
   (C4_amended_exclusion "emby" "/media/x/foo" "foo,bar").2.2.1 (by decide)
     (by decide)⟩

/-- C5: for TV items the canonical title is the substring of the item name
strictly before the first occurrence of the two-character marker
`' ' :: 'S'` (`canonicalTitle "Breaking Bad S05E14" "TV" = some "Breaking
Bad"`), and the operation fails (`none`, modelling the uncaught
`ValueError`) when no marker occurs; for movies the canonical title is the
item name verbatim; the display title is unchanged for season index ≤ 1
and is `"{title} 第{season}季"` for season index > 1. -/
theorem C5_title_normalization :
    canonicalTitle "Breaking Bad S05E14" "TV" = some "Breaking Bad" ∧
    (∀ name : String,
      (¬ ∃ pre post : List Char, name.data = pre ++ ' ' :: 'S' :: post) →
      canonicalTitle name "TV" = none) ∧
    (∀ (name p : String), canonicalTitle name "TV" = some p →
      (∃ rest, name.data = p.data ++ ' ' :: 'S' :: rest) ∧
        ¬ ∃ pre post : List Char, p.data = pre ++ ' ' :: 'S' :: post) ∧
    (∀ name : String, canonicalTitle name "MOV" = some name) ∧
    (∀ (t : String) (s : Nat), s ≤ 1 → format_title t s = t) ∧
    (∀ (t : String) (s : Nat), 1 < s →
      format_title t s = t ++ " 第" ++ toString s ++ "季") := by
  refine ⟨by decide, ?_, ?_, ?_, ?_, ?_⟩
  · intro name h
    have hms : markerSplit name.data = none := (markerSplit_eq_none_iff name.data).mpr h
    simp [canonicalTitle, canonical_tv_title, hms]
  · intro name p h
    simp only [canonicalTitle, if_pos rfl, canonical_tv_title] at h
    rcases Option.map_eq_some'.mp h with ⟨l, hl, hp⟩
    obtain ⟨⟨rest, hrest⟩, hnone⟩ := markerSplit_eq_some name.data l hl
    have hpd : p.data = l := by rw [← hp]
    refine ⟨⟨rest, by rw [hrest, hpd]⟩, ?_⟩
    rw [hpd]
    exact (markerSplit_eq_none_iff l).mp hnone
  · intro name
    simp [canonicalTitle]
  · intro t s hs
    have : ¬ s > 1 := by omega
    simp [format_title, this]
  · intro t s hs
    simp [format_title, hs]

/-- C5 witness: each guarded conjunct evaluated at a concrete input. -/
theorem C5_title_normalization_witness :
    canonicalTitle "Foo" "TV" = none ∧
    canonicalTitle "Arrival" "MOV" = some "Arrival" ∧
    format_title "Foo" 1 = "Foo" ∧
    format_title "Foo" 2 = "Foo" ++ " 第" ++ toString 2 ++ "季" :=
  ⟨C5_title_normalization.2.1 "Foo"
      ((markerSplit_eq_none_iff "Foo".data).mp (by decide)),
   C5_title_normalization.2.2.2.1 "Arrival",
   C5_title_normalization.2.2.2.2.1 "Foo" 1 (by decide),
   C5_title_normalization.2.2.2.2.2 "Foo" 2 (by decide)⟩

/-- C6: when the recognition lookup constrained by the provided tmdb id
fails, it is retried exactly once with the tmdb id cleared
(`recognize_chain` then returns whatever the unconstrained lookup
returns); if that retry also fails, both the TV and the movie handler end
with `RecognitionFailed` and the store unchanged. -/
theorem C6_recognition_retry (cfg : DouBanWatchingConfig) (env : Env)
    (event : WebhookEventInfo) (store : Store) (played : Bool) (t : String)
    (hti : canonical_tv_title event.item_name = some t)
    (hsup : ¬ (event.episode_id < 2 ∧ cfg.first = true))
    (htv1 : env.recognize
      { title := t, begin_season := some event.season_id, mtype := "电视剧" }
      event.tmdb_id = none)
    (htv2 : env.recognize
      { title := t, begin_season := some event.season_id, mtype := "电视剧" }
      none = none)
    (hmv1 : env.recognize
      { title := event.item_name, begin_season := none, mtype := "电影" }
      event.tmdb_id = none)
    (hmv2 : env.recognize
      { title := event.item_name, begin_season := none, mtype := "电影" }
      none = none) :
    _process_tv_show cfg env event store played =
      (SyncOutcome.RecognitionFailed, store) ∧
    _process_movie cfg env event store played =
      (SyncOutcome.RecognitionFailed, store) ∧
    (∀ (env' : Env) (m : MetaQuery) (tid : Option Nat),
      env'.recognize m tid = none →
      recognize_chain env' m tid = env'.recognize m none) := by
  refine ⟨?_, ?_, ?_⟩
  · unfold _process_tv_show
    rw [hti]
    simp only [if_neg hsup, recognize_chain, htv1, htv2]
  · unfold _process_movie
    simp only [recognize_chain, hmv1, hmv2]
  · intro env' m tid h
    simp [recognize_chain, h]

/-- C6 witness: an environment whose recognizer always fails. -/
theorem C6_recognition_retry_witness :
    _process_tv_show sampleCfg noRecEnv sampleTvEvent [] false =
      (SyncOutcome.RecognitionFailed, []) ∧
    _process_movie sampleCfg noRecEnv sampleTvEvent [] false =
      (SyncOutcome.RecognitionFailed, []) := by
  have h := C6_recognition_retry sampleCfg noRecEnv sampleTvEvent [] false "Show"
    (by decide) (by decide) rfl rfl rfl rfl
  exact ⟨h.1, h.2.1⟩

/-- C7 counterexample: an event of unsupported item type whose path matches
an exclusion keyword is reported `Excluded`, not `Unsupported` — the
exclusion filter runs before the item-type dispatch, so `Unsupported` is
NOT decided first. -/
theorem C7_counterexample :
    (sync_log { sampleCfg with exclude := "foo" } noRecEnv sampleMusicEvent
        [] false).1 = SyncOutcome.Excluded "路径 /x/foo 包含 foo" ∧
    (sync_log { sampleCfg with exclude := "foo" } noRecEnv sampleMusicEvent
        [] false).1 ≠ SyncOutcome.Unsupported := by decide

/-- C7 (amended): the `Unsupported` outcome is decided only after the user
and event-kind gate and after the exclusion filter: a playback event that
passes the gate and is not excluded, and whose item type is neither `"TV"`
nor `"MOV"`, yields `Unsupported` with the store unchanged. -/
theorem C7_amended_unsupported (cfg : DouBanWatchingConfig) (env : Env)
    (event : WebhookEventInfo) (store : Store) (played : Bool)
    (hgate : (play_start.contains event.event = true ∧
        (pySplit cfg.user [',']).contains event.user_name = true) ∨ played = true)
    (hex : (exclude_keyword event.channel event.item_path cfg.exclude).ret = false)
    (htv : event.item_type ≠ "TV") (hmv : event.item_type ≠ "MOV") :
    sync_log cfg env event store played = (SyncOutcome.Unsupported, store) := by
  unfold sync_log
  rw [if_pos hgate]
  simp only [hex, Bool.false_eq_true, if_false, if_neg htv, if_neg hmv]

/-- C7 witness: a music event that passes the gate and the filter. -/
theorem C7_amended_unsupported_witness :
    sync_log sampleCfg noRecEnv sampleMusicEvent [] false =
      (SyncOutcome.Unsupported, []) :=
  C7_amended_unsupported sampleCfg noRecEnv sampleMusicEvent [] false
    (Or.inl ⟨by decide, by decide⟩) (by decide) (by decide) (by decide)

/-- C8: restoring a valid backup merges the imported processed-item map
into the existing store with the imported value winning on every key
collision (stated for an imported map with distinct keys, as any parsed
JSON object has); a missing or malformed backup file reports an error
(`false` flag) and leaves the existing store completely unchanged. -/
theorem C8_restore_merge (cfgJ : DouBanWatchingConfig)
    (imported existing : Store)
    (hnd : (imported.map Prod.fst).Nodup) :
    (∀ k : String,
      alistGet ((_import_config_data (BackupInput.valid cfgJ imported)
          existing).2.1) k =
        optOr (alistGet imported k) (alistGet existing k)) ∧
    _import_config_data BackupInput.missing existing =
      (false, existing, none) ∧
    _import_config_data BackupInput.malformed existing =
      (false, existing, none) := by
  refine ⟨?_, rfl, rfl⟩
  intro k
  exact alistGet_storeMerge existing imported k hnd

/-- C8 witness: on the colliding key `"B"` the imported record wins. -/
theorem C8_restore_merge_witness :
    alistGet ((_import_config_data
        (BackupInput.valid sampleCfg
          [("B", { sampleRecord with subject_id := "new" }), ("C", sampleRecord)])
        [("A", sampleRecord), ("B", sampleRecord)]).2.1) "B" =
      some { sampleRecord with subject_id := "new" } := by
  have h := (C8_restore_merge sampleCfg
    [("B", { sampleRecord with subject_id := "new" }), ("C", sampleRecord)]
    [("A", sampleRecord), ("B", sampleRecord)] (by decide)).1 "B"
  rw [h]
  decide

/-- C9: the processed-item map (and hence its persisted `data` key, which
is rewritten only in the same success branch) is unchanged when the archive
sync fails — whether no subject id is resolved (`SubjectNotFound`) or the
status-update call returns false (`SyncFailed`); the record for the title
is inserted exactly on a fully successful sync. -/
theorem C9_failed_sync_preserves_store (cfg : DouBanWatchingConfig) (env : Env)
    (title status : String) (event : WebhookEventInfo) (store : Store)
    (mi : MediaInfo) :
    (env.get_subject_id title = none →
      _sync_to_douban cfg env title status event store mi =
        (SyncOutcome.SubjectNotFound, store)) ∧
    (∀ n i : String, env.get_subject_id title = some (n, i) →
      env.set_watching_status i status cfg.private_ = false →
      _sync_to_douban cfg env title status event store mi =
        (SyncOutcome.SyncFailed, store)) ∧
    (∀ n i : String, env.get_subject_id title = some (n, i) →
      env.set_watching_status i status cfg.private_ = true →
      _sync_to_douban cfg env title status event store mi =
        (SyncOutcome.Synced title status,
          alistInsert store title
            { subject_id := i, subject_name := n, timestamp := env.now
              poster_path := mi.poster_path
              type := if event.item_type = "TV" then "电视剧" else "电影" })) := by
  refine ⟨?_, ?_, ?_⟩
  · intro h
    simp [_sync_to_douban, h]
  · intro n i h hs
    simp [_sync_to_douban, h, hs]
  · intro n i h hs
    simp [_sync_to_douban, h, hs]

/-- C9 witness: a failing subject lookup leaves the store unchanged. -/
theorem C9_failed_sync_preserves_store_witness :
    _sync_to_douban sampleCfg noRecEnv "Show" "collect" sampleTvEvent
      [("A", sampleRecord)] sampleMediaInfo =
      (SyncOutcome.SubjectNotFound, [("A", sampleRecord)]) :=
  (C9_failed_sync_preserves_store sampleCfg noRecEnv "Show" "collect"
    sampleTvEvent [("A", sampleRecord)] sampleMediaInfo).1 rfl

/-- C10: a webhook event whose user name is not an element of the
comma-split configured user list is ignored by both handlers (the direct
`sync_log` invocation and `sync_played`), with the store unchanged; since
splitting the empty configured user string yields `[""]`, an empty user
configuration admits only events with an empty user name. -/
theorem C10_user_filter (cfg : DouBanWatchingConfig) (env : Env)
    (event : WebhookEventInfo) (store : Store)
    (h : (pySplit cfg.user [',']).contains event.user_name = false) :
    sync_log cfg env event store false = (SyncOutcome.Ignored, store) ∧
    sync_played cfg env event store = (SyncOutcome.Ignored, store) ∧
    (∀ u : String, u ≠ "" → (pySplit "" [',']).contains u = false) := by
  have hnc : ¬ (pySplit cfg.user [',']).contains event.user_name = true := by
    rw [h]
    exact Bool.false_ne_true
  refine ⟨?_, ?_, ?_⟩
  · unfold sync_log
    rw [if_neg ?hg]
    case hg =>
      rintro (⟨_, hc⟩ | hple)
      · exact hnc hc
      · exact Bool.false_ne_true hple
  · unfold sync_played
    rw [if_neg ?hg2]
    case hg2 =>
      rintro ⟨_, hc⟩
      exact hnc hc
  · intro u hu
    have hsplit : pySplit "" [','] = [""] := by decide
    rw [hsplit]
    have hb : (u == "") = false := beq_eq_false_iff_ne.mpr hu
    simp [List.contains, List.elem, hb]

/-- C10 witness: a user outside the configured list is ignored. -/
theorem C10_user_filter_witness :
    sync_log sampleCfg sampleEnv { sampleTvEvent with user_name := "x" } []
        false = (SyncOutcome.Ignored, []) ∧
    sync_played sampleCfg sampleEnv { sampleTvEvent with user_name := "x" } [] =
      (SyncOutcome.Ignored, []) := by
  have h := C10_user_filter sampleCfg sampleEnv
    { sampleTvEvent with user_name := "x" } [] (by decide)
  exact ⟨h.1, h.2.1⟩
